import Mathlib

/-!
Verification development for the ms-tools-bridge core: a shallow embedding of
the ProviderRegistry (src/providers/ProviderRegistry.ts) and the
InstallationAssistant (the registry-aware revision of
src/services/InstallationAssistant.ts), together with theorems settling the
behavioural claims about provider activation, deactivation, auto-activation,
missing-tool classification and install orchestration.

Modelling conventions:
- Providers are identified by a numeric object identity `pid`; the source
  compares the active provider against the looked-up provider with reference
  equality, which the model renders as `pid` equality.
- A provider is an opaque external collaborator; the model records, for one
  logical operation, what its methods would do: the boolean its
  `isAvailable()` probe returns, and whether `isAvailable()`, `activate()` or
  `deactivate()` raises.
- Registry operations return, besides their result and the updated registry
  state, the list of provider-method invocations they performed, in order.
  This makes call-count and call-order facts (deactivated exactly once, no
  probe on a short-circuit) stateable.
- Promise rejection is modelled with `Except`: an operation whose source has
  no try/catch around an awaited provider call propagates the error.
- Output-channel logging and user-facing notifications carry no state the
  claims mention and are dropped from the model.
-/

/-- Object identity of a provider instance; reference equality in the source
is equality of `pid` in the model. -/
abbrev Pid := Nat

/-- External behaviour of one provider for the duration of one logical
operation: the result of its availability probe and whether each of its
lifecycle methods raises. -/
structure Provider where
  pid : Pid
  name : String
  available : Bool
  availRaises : Bool
  activateRaises : Bool
  deactivateRaises : Bool
deriving DecidableEq, Repr

/-- One provider-method invocation performed by a registry operation. -/
inductive CallEvent where
  | deactivateCall (pid : Pid)
  | isAvailableCall (pid : Pid)
  | activateCall (pid : Pid)
deriving DecidableEq, Repr

/-- Registry state: one name-to-provider map per capability kind (a JS `Map`,
modelled as an insertion-ordered association list) plus at most one active
provider per kind. -/
structure ProviderRegistry where
  languageProviders : List (String × Provider)
  buildProviders : List (String × Provider)
  debugProviders : List (String × Provider)
  activeLanguageProvider : Option Provider
  activeBuildProvider : Option Provider
  activeDebugProvider : Option Provider
deriving DecidableEq, Repr

/-- `Map.get`: first binding of the name, if any. -/
def lookupProv : List (String × Provider) → String → Option Provider
  | [], _ => none
  | (k, v) :: rest, n => if k = n then some v else lookupProv rest n

/-- `Map.set`: overwrite in place, else append (JS `Map` keeps insertion
order and last write wins). -/
def mapSet : List (String × Provider) → String → Provider → List (String × Provider)
  | [], n, p => [(n, p)]
  | (k, v) :: rest, n, p =>
      if k = n then (n, p) :: rest else (k, v) :: mapSet rest n p

/-- `registerLanguageProvider`: adds the provider under its name, no
availability check, silent overwrite. -/
def registerLanguageProvider (r : ProviderRegistry) (p : Provider) : ProviderRegistry :=
  { r with languageProviders := mapSet r.languageProviders p.name p }

/-- `registerBuildProvider`. -/
def registerBuildProvider (r : ProviderRegistry) (p : Provider) : ProviderRegistry :=
  { r with buildProviders := mapSet r.buildProviders p.name p }

/-- `registerDebugProvider`. -/
def registerDebugProvider (r : ProviderRegistry) (p : Provider) : ProviderRegistry :=
  { r with debugProviders := mapSet r.debugProviders p.name p }

/-- Shared tail of `activateLanguageProvider` after the lookup, the
already-active short-circuit and the deactivation of the current provider:
probe `isAvailable()`, then call `activate()`, recording the new provider as
active only on success; every raise is caught by the try/catch and turned
into a `false` result. `pre` is the list of calls already performed. -/
def probeAndActivateLanguage (r : ProviderRegistry) (provider : Provider)
    (pre : List CallEvent) : Bool × ProviderRegistry × List CallEvent :=
  let tr := pre ++ [CallEvent.isAvailableCall provider.pid]
  if provider.availRaises then
    (false, r, tr)
  else if !provider.available then
    (false, r, tr)
  else
    let tr2 := tr ++ [CallEvent.activateCall provider.pid]
    if provider.activateRaises then
      (false, r, tr2)
    else
      (true, { r with activeLanguageProvider := some provider }, tr2)

/-- `activateLanguageProvider(name)`: lookup (false if absent), idempotent
short-circuit when the looked-up provider is reference-equal to the active
one, then inside a try/catch: deactivate the current active provider if any
(note: the active slot is not cleared here), probe and activate the new one.
A raise anywhere in the try block yields `false` with the state as it was at
the start of the call (the source mutates `activeLanguageProvider` only on
full success). -/
def activateLanguageProvider (r : ProviderRegistry) (name : String) :
    Bool × ProviderRegistry × List CallEvent :=
  match lookupProv r.languageProviders name with
  | none => (false, r, [])
  | some provider =>
    match r.activeLanguageProvider with
    | some a =>
        if a.pid = provider.pid then
          (true, r, [])
        else if a.deactivateRaises then
          (false, r, [CallEvent.deactivateCall a.pid])
        else
          probeAndActivateLanguage r provider [CallEvent.deactivateCall a.pid]
    | none =>
        probeAndActivateLanguage r provider []

/-- `deactivateLanguageProvider()`: if a provider is active, awaits its
`deactivate()` with no try/catch — when that raises, the rejection
propagates to the caller and the active slot is left as it was; only on a
normal return is the slot cleared. -/
def deactivateLanguageProvider (r : ProviderRegistry) :
    Except String Unit × ProviderRegistry × List CallEvent :=
  match r.activeLanguageProvider with
  | none => (Except.ok (), r, [])
  | some a =>
      if a.deactivateRaises then
        (Except.error "deactivate raised", r, [CallEvent.deactivateCall a.pid])
      else
        (Except.ok (), { r with activeLanguageProvider := none },
          [CallEvent.deactivateCall a.pid])

/-- `activateBuildProvider(name)`: lookup, then inside a try/catch probe
`isAvailable()` and on success record the provider as active. There is no
already-active short-circuit and the previously active provider is never
deactivated or otherwise invoked. -/
def activateBuildProvider (r : ProviderRegistry) (name : String) :
    Bool × ProviderRegistry × List CallEvent :=
  match lookupProv r.buildProviders name with
  | none => (false, r, [])
  | some provider =>
      let tr := [CallEvent.isAvailableCall provider.pid]
      if provider.availRaises then
        (false, r, tr)
      else if !provider.available then
        (false, r, tr)
      else
        (true, { r with activeBuildProvider := some provider }, tr)

/-- `activateDebugProvider(name)`: same shape as the build path. -/
def activateDebugProvider (r : ProviderRegistry) (name : String) :
    Bool × ProviderRegistry × List CallEvent :=
  match lookupProv r.debugProviders name with
  | none => (false, r, [])
  | some provider =>
      let tr := [CallEvent.isAvailableCall provider.pid]
      if provider.availRaises then
        (false, r, tr)
      else if !provider.available then
        (false, r, tr)
      else
        (true, { r with activeDebugProvider := some provider }, tr)

/-- `getStatus()`: active provider name per kind; `name || null` maps an
empty name to null. -/
def getStatus (r : ProviderRegistry) : Option String × Option String × Option String :=
  (match r.activeLanguageProvider with
    | some p => if p.name = "" then none else some p.name
    | none => none,
   match r.activeBuildProvider with
    | some p => if p.name = "" then none else some p.name
    | none => none,
   match r.activeDebugProvider with
    | some p => if p.name = "" then none else some p.name
    | none => none)

/-- The language half of `autoActivateProviders`: walk the priority list,
calling `activateLanguageProvider` until one call returns true. -/
def tryActivateLangList (r : ProviderRegistry) :
    List String → ProviderRegistry × List CallEvent
  | [] => (r, [])
  | n :: rest =>
      let res := activateLanguageProvider r n
      if res.1 then (res.2.1, res.2.2)
      else
        let res2 := tryActivateLangList res.2.1 rest
        (res2.1, res.2.2 ++ res2.2)

/-- The build half of `autoActivateProviders`. -/
def tryActivateBuildList (r : ProviderRegistry) :
    List String → ProviderRegistry × List CallEvent
  | [] => (r, [])
  | n :: rest =>
      let res := activateBuildProvider r n
      if res.1 then (res.2.1, res.2.2)
      else
        let res2 := tryActivateBuildList res.2.1 rest
        (res2.1, res.2.2 ++ res2.2)

/-- The debug half of `autoActivateProviders`. -/
def tryActivateDebugList (r : ProviderRegistry) :
    List String → ProviderRegistry × List CallEvent
  | [] => (r, [])
  | n :: rest =>
      let res := activateDebugProvider r n
      if res.1 then (res.2.1, res.2.2)
      else
        let res2 := tryActivateDebugList res.2.1 rest
        (res2.1, res.2.2 ++ res2.2)

/-- `autoActivateProviders()`: fixed priority lists per kind, most preferred
first, each walked until an activation succeeds. Every callee catches its
own provider-raised errors, so the operation as a whole never rejects
(rendered by the model being a total function into plain state). -/
def autoActivateProviders (r : ProviderRegistry) : ProviderRegistry × List CallEvent :=
  let lang := tryActivateLangList r ["roslyn", "omnisharp"]
  let build := tryActivateBuildList lang.1 ["msbuild"]
  let debug := tryActivateDebugList build.1 ["mono"]
  (debug.1, lang.2 ++ build.2 ++ debug.2)

/-! ## Installation assistant (missing-tool classifier and install orchestrator) -/

/-- `getPlatform()` result. -/
inductive Platform where
  | windows
  | mac
  | linux
deriving DecidableEq, Repr

/-- `executeCommand` result record. -/
structure ExecResult where
  stdout : String
  stderr : String
  exitCode : Int
deriving DecidableEq, Repr

/-- The external environment the assistant probes through the platform
service and the editor API: current platform, which files exist, what each
command invocation does (`Except.error` is a process-spawn rejection with
its message; a non-zero exit is reported in the result, never raised),
which editor extensions are installed, the optional `findOmniSharp`
capability (present with its boolean result when the platform service
implements it), and the two Windows environment variables the SDK search
interpolates. -/
structure Env where
  platform : Platform
  fileExists : String → Bool
  exec : String → List String → Except String ExecResult
  extensions : String → Bool
  findOmniSharp : Option Bool
  programFiles : Option String
  programFilesX86 : Option String

/-- JS string interpolation of a possibly-undefined environment variable:
`undefined` concatenates as the text "undefined". -/
def jsEnvStr (o : Option String) : String := o.getD "undefined"

/-- Windows candidate paths for the dotnet CLI. -/
def windowsDotnetPaths (env : Env) : List String :=
  [jsEnvStr env.programFiles ++ "\\dotnet\\dotnet.exe",
   jsEnvStr env.programFilesX86 ++ "\\dotnet\\dotnet.exe"]

/-- Non-Windows candidate paths for the dotnet CLI. -/
def unixDotnetPaths : List String :=
  ["/usr/local/share/dotnet/dotnet", "/usr/bin/dotnet",
   "/usr/local/bin/dotnet", "/opt/homebrew/bin/dotnet"]

/-- The candidate-path loop: first path that is a truthy (non-empty) string
and exists on disk. -/
def findInPaths (env : Env) (ps : List String) : Option String :=
  ps.find? (fun p => p ≠ "" && env.fileExists p)

/-- `findDotNetCLI()`: check the per-platform candidate paths, then fall back
to probing the PATH with `dotnet --version`; when that exits 0, resolve the
exact path via `where` (Windows) or `which` (Unix), accepting the first
output line when it names an existing file and otherwise returning the bare
string "dotnet"; a raise anywhere in the PATH probe is caught and the search
reports not-found. The memoisation field of the source is semantically
transparent here because the environment is fixed for one classification
pass. -/
def findDotNetCLI (env : Env) : Option String :=
  let pathsToCheck :=
    if env.platform = Platform.windows then windowsDotnetPaths env else unixDotnetPaths
  match findInPaths env pathsToCheck with
  | some p => some p
  | none =>
    match env.exec "dotnet" ["--version"] with
    | Except.error _ => none
    | Except.ok versionResult =>
      if versionResult.exitCode = 0 then
        let command := if env.platform = Platform.windows then "where" else "which"
        match env.exec command ["dotnet"] with
        | Except.error _ => none
        | Except.ok pathResult =>
          if pathResult.exitCode = 0 && pathResult.stdout ≠ "" then
            let dotnetPath := ((pathResult.stdout.splitOn "\n").headD "").trim
            if dotnetPath ≠ "" && env.fileExists dotnetPath then some dotnetPath
            else some "dotnet"
          else some "dotnet"
      else none

/-- `String.prototype.includes` for a non-empty pattern: the pattern occurs
iff splitting on it yields more than one piece. -/
def includesStr (s pat : String) : Bool := (s.splitOn pat).length ≥ 2

/-- The extension identifiers `checkCSharpExtensions` looks for, in
preference order. -/
def preferredExtensions : List String :=
  ["muhammad-sammy.csharp", "ms-dotnettools.csharp",
   "ms-dotnettools.vscode-dotnet-runtime"]

/-- `checkCSharpExtensions()`: true when any of the preferred C# extensions
is installed. -/
def checkCSharpExtensions (env : Env) : Bool :=
  preferredExtensions.any env.extensions

/-- `checkOmniSharpAvailable()`: use the optional `findOmniSharp` capability
when the platform service has it; otherwise list global dotnet tools and
look for "omnisharp" in the stdout, treating any raise as not-available. -/
def checkOmniSharpAvailable (env : Env) : Bool :=
  match env.findOmniSharp with
  | some r => r
  | none =>
    match findDotNetCLI env with
    | some dp =>
        match env.exec dp ["tool", "list", "-g"] with
        | Except.error _ => false
        | Except.ok result => includesStr result.stdout "omnisharp"
    | none => false

/-- `findMono()`: first of the common mono paths that exists. -/
def findMono (env : Env) : Option String :=
  ["/usr/local/bin/mono", "/opt/homebrew/bin/mono",
   "/Library/Frameworks/Mono.framework/Versions/Current/Commands/mono"].find?
    env.fileExists

/-- `MissingTool.category`. -/
inductive ToolCategory where
  | language
  | build
  | debug
  | runtime
deriving DecidableEq, Repr

/-- `MissingTool.installMethod`. -/
inductive InstallMethod where
  | automatic
  | guided
  | manual
deriving DecidableEq, Repr

/-- The `MissingTool` record emitted by the classifier. -/
structure MissingTool where
  id : String
  name : String
  description : String
  required : Bool
  category : ToolCategory
  installMethod : InstallMethod
  installCommand : Option String
  installArgs : Option (List String)
  downloadUrl : Option String
  instructions : Option (List String)
  extensionId : Option String
deriving DecidableEq, Repr

/-- The .NET SDK tool pushed when the base runtime is absent. -/
def dotnetSdkTool : MissingTool :=
  { id := "dotnet-sdk"
    name := ".NET SDK"
    description := "Required for building and running .NET applications"
    required := true
    category := ToolCategory.runtime
    installMethod := InstallMethod.manual
    installCommand := none
    installArgs := none
    downloadUrl := some "https://dotnet.microsoft.com/download"
    instructions := some
      ["Visit https://dotnet.microsoft.com/download",
       "Download the latest .NET SDK for your platform",
       "Run the installer and follow the instructions",
       "Restart VS Code after installation"]
    extensionId := none }

/-- The Open VSX C# extension suggestion. -/
def sammyTool : MissingTool :=
  { id := "csharp-extension-sammy"
    name := "C# Extension (muhammad-sammy)"
    description := "Comprehensive C# support with OmniSharp integration - recommended for Open VSX"
    required := false
    category := ToolCategory.language
    installMethod := InstallMethod.guided
    installCommand := none
    installArgs := none
    downloadUrl := none
    instructions := some
      ["Open VS Code Extensions view (Ctrl+Shift+X)",
       "Search for \"muhammad-sammy.csharp\"",
       "Click Install on the C# extension by muhammad-sammy",
       "Alternative: Install from Open VSX marketplace"]
    extensionId := some "muhammad-sammy.csharp" }

/-- The Microsoft C# extension suggestion. -/
def msTool : MissingTool :=
  { id := "csharp-extension-ms"
    name := "C# Extension (Microsoft)"
    description := "Official Microsoft C# extension with OmniSharp"
    required := false
    category := ToolCategory.language
    installMethod := InstallMethod.guided
    installCommand := none
    installArgs := none
    downloadUrl := none
    instructions := some
      ["Open VS Code Extensions view (Ctrl+Shift+X)",
       "Search for \"ms-dotnettools.csharp\"",
       "Click Install on the official Microsoft C# extension"]
    extensionId := some "ms-dotnettools.csharp" }

/-- The standalone OmniSharp fallback, parameterised over the dotnet CLI
path found earlier. -/
def omnisharpStandaloneTool (dp : String) : MissingTool :=
  { id := "omnisharp-standalone"
    name := "OmniSharp Language Server (Standalone)"
    description := "Command-line OmniSharp for manual setup (fallback option)"
    required := false
    category := ToolCategory.language
    installMethod := InstallMethod.automatic
    installCommand := some dp
    installArgs := some ["tool", "install", "-g", "omnisharp"]
    downloadUrl := none
    instructions := none
    extensionId := none }

/-- The mono tool as finally assembled per platform (the source builds a
base record and then fills the platform-specific branch before pushing; the
windows case is unreachable because the whole check is guarded by
platform handling). -/
def monoToolFor (platform : Platform) : MissingTool :=
  if platform = Platform.mac then
    { id := "mono"
      name := "Mono Framework"
      description := "Required for .NET Framework development and debugging on non-Windows"
      required := false
      category := ToolCategory.debug
      installMethod := InstallMethod.guided
      installCommand := some "/opt/homebrew/bin/brew"
      installArgs := some ["install", "mono"]
      downloadUrl := none
      instructions := some
        ["Install Homebrew if not already installed: /bin/bash -c \"$(curl -fsSL https://raw.githubusercontent.com/Homebrew/install/HEAD/install.sh)\"",
         "Run: brew install mono",
         "Or download from: https://www.mono-project.com/download/stable/"]
      extensionId := none }
  else
    { id := "mono"
      name := "Mono Framework"
      description := "Required for .NET Framework development and debugging on non-Windows"
      required := false
      category := ToolCategory.debug
      installMethod := InstallMethod.manual
      installCommand := none
      installArgs := none
      downloadUrl := some "https://www.mono-project.com/download/stable/"
      instructions := some
        ["Visit https://www.mono-project.com/download/stable/",
         "Follow instructions for your Linux distribution",
         "Common: sudo apt install mono-complete (Ubuntu/Debian)",
         "Or: sudo dnf install mono-complete (Fedora/RHEL)"]
      extensionId := none }

/-- Modelled from the spec: `ProviderRegistry.getLanguageProvider(name)`, the
by-name accessor the classifier calls, is not present in the registry file
shipped under src; the spec describes the registry state as a mapping
name-to-Provider per kind, so the accessor returns the provider registered
under the given name, if any. This is exactly `lookupProv` applied to the
language map; the probe wrapper below then renders the unguarded
`roslynProvider && (await roslynProvider.isAvailable())` step, whose raise
propagates out of the whole classification pass. -/
def roslynActiveProbe (reg : ProviderRegistry) : Except String Bool :=
  match lookupProv reg.languageProviders "roslyn" with
  | none => Except.ok false
  | some p =>
      if p.availRaises then Except.error "isAvailable raised"
      else Except.ok p.available

/-- `checkMissingTools()` of the registry-aware assistant: the base-runtime
check, the roslyn probe gating the language-related checks, the two guided
C# extension suggestions, the automatic standalone OmniSharp fallback (only
with the base runtime present), and the platform-conditional mono check.
The roslyn probe is the only step that can reject, so it is matched first;
all other steps are pure in the model and their order of evaluation is
observationally the emission order of the source. -/
def checkMissingTools (env : Env) (reg : ProviderRegistry) :
    Except String (List MissingTool) :=
  match roslynActiveProbe reg with
  | Except.error e => Except.error e
  | Except.ok isRoslynActive =>
    let dotnetPath := findDotNetCLI env
    let m1 := if dotnetPath.isNone then [dotnetSdkTool] else []
    let csharpExtensionAvailable :=
      if !isRoslynActive then checkCSharpExtensions env else false
    let m2 :=
      if !isRoslynActive && !csharpExtensionAvailable then [sammyTool, msTool]
      else []
    let m3 :=
      match dotnetPath with
      | some dp =>
          if !isRoslynActive && !csharpExtensionAvailable
              && !checkOmniSharpAvailable env then
            [omnisharpStandaloneTool dp]
          else []
      | none => []
    let m4 :=
      if env.platform ≠ Platform.windows then
        match findMono env with
        | none => [monoToolFor env.platform]
        | some _ => []
      else []
    Except.ok (m1 ++ m2 ++ m3 ++ m4)

/-- Tri-state install outcome; the source reports it through its
notifications and boolean return (`installed` is the only `true` return,
a failure surfaces an error message carrying the reason, a cancellation or
decline surfaces a neutral message). -/
inductive InstallOutcome where
  | installed
  | declinedOrCancelled
  | failed (reason : String)
deriving DecidableEq, Repr

/-- `executeInstallCommand` under a cancellable progress surface:
the callback probes the cancellation token once before launching the
command and throws an error whose message contains "cancelled" when the
token is set; the catch block recognises that message and reports the
cancellation outcome. Otherwise the command result is mapped: exit 0 is a
successful install, a non-zero exit is a failure whose reason is the
command stderr; a process-spawn rejection falls into the same catch,
reported as cancellation when its message contains "cancelled" and as a
failure with that message otherwise. -/
def executeInstallCommand (env : Env) (cancelRequested : Bool)
    (cmd : String) (args : List String) : InstallOutcome :=
  if cancelRequested then
    InstallOutcome.declinedOrCancelled
  else
    match env.exec cmd args with
    | Except.ok result =>
        if result.exitCode = 0 then InstallOutcome.installed
        else InstallOutcome.failed result.stderr
    | Except.error msg =>
        if includesStr msg "cancelled" then InstallOutcome.declinedOrCancelled
        else InstallOutcome.failed msg

/-- `installTool(tool)`: automatic installs with a truthy command and an
args array run the command; a guided install surfaces the marketplace entry
or the instructions and returns without confirmation (the user completes it
externally); everything else falls to the manual-instructions path. Both of
the latter report the declined-or-cancelled outcome, matching their
invariably false boolean return. -/
def installTool (env : Env) (cancelRequested : Bool) (tool : MissingTool) :
    InstallOutcome :=
  match tool.installMethod, tool.installCommand, tool.installArgs with
  | InstallMethod.automatic, some cmd, some args =>
      if cmd = "" then InstallOutcome.declinedOrCancelled
      else executeInstallCommand env cancelRequested cmd args
  | InstallMethod.automatic, _, _ => InstallOutcome.declinedOrCancelled
  | InstallMethod.guided, _, _ => InstallOutcome.declinedOrCancelled
  | InstallMethod.manual, _, _ => InstallOutcome.declinedOrCancelled

/-- `installTools(tools)`: a plain sequential loop, each install awaited to
completion before the next begins; no outcome aborts the loop because
`installTool` catches everything it runs. The model returns the per-tool
outcomes in iteration order. -/
def installTools (env : Env) (cancelRequested : Bool) :
    List MissingTool → List InstallOutcome
  | [] => []
  | t :: ts =>
      installTool env cancelRequested t :: installTools env cancelRequested ts

/-! ## Concrete fixtures used by witnesses and counterexamples -/

/-- A freshly constructed registry. -/
def emptyRegistry : ProviderRegistry := ⟨[], [], [], none, none, none⟩

/-- An available, well-behaved roslyn provider. -/
def provRoslyn : Provider := ⟨1, "roslyn", true, false, false, false⟩

/-- An omnisharp provider whose availability probe returns false. -/
def provOmniUnavail : Provider := ⟨2, "omnisharp", false, false, false, false⟩

/-- An available omnisharp provider. -/
def provOmniAvail : Provider := ⟨2, "omnisharp", true, false, false, false⟩

/-- A roslyn provider whose availability probe returns false. -/
def provRoslynUnavail : Provider := ⟨1, "roslyn", false, false, false, false⟩

/-- A provider whose deactivate method raises. -/
def provBadDeactivate : Provider := ⟨3, "roslyn", true, false, false, true⟩

/-- An available msbuild provider. -/
def provMsbuild : Provider := ⟨5, "msbuild", true, false, false, false⟩

/-- An available mono debug provider. -/
def provMono : Provider := ⟨6, "mono", true, false, false, false⟩

/-- Registry for the failed-switch scenario: roslyn registered and active,
omnisharp registered but unavailable. -/
def regSwitch : ProviderRegistry :=
  ⟨[("roslyn", provRoslyn), ("omnisharp", provOmniUnavail)], [], [],
    some provRoslyn, none, none⟩

/-- Registry whose active language provider raises on deactivate. -/
def regBadDeactivate : ProviderRegistry :=
  ⟨[("roslyn", provBadDeactivate)], [], [], some provBadDeactivate, none, none⟩

/-- Registry with roslyn active and well behaved. -/
def regLangActive : ProviderRegistry :=
  ⟨[("roslyn", provRoslyn)], [], [], some provRoslyn, none, none⟩

/-- Registry with msbuild registered but not yet active. -/
def regBuildFresh : ProviderRegistry :=
  ⟨[], [("msbuild", provMsbuild)], [], none, none, none⟩

/-- Registry with msbuild registered and active. -/
def regBuildActive : ProviderRegistry :=
  ⟨[], [("msbuild", provMsbuild)], [], none, some provMsbuild, none⟩

/-- Registry with mono registered and active as debug provider. -/
def regDebugActive : ProviderRegistry :=
  ⟨[], [], [("mono", provMono)], none, none, some provMono⟩

/-! ## Claim C9 -/

/-- Claim C9: for every kind K and every name N not registered under K,
activate(K, N) returns false, the registry state (hence status()[K]) is
unchanged, and no provider method is invoked. -/
theorem c9_unregistered_activate_no_change (r : ProviderRegistry) (n : String) :
    (lookupProv r.languageProviders n = none →
      activateLanguageProvider r n = (false, r, [])) ∧
    (lookupProv r.buildProviders n = none →
      activateBuildProvider r n = (false, r, [])) ∧
    (lookupProv r.debugProviders n = none →
      activateDebugProvider r n = (false, r, [])) := by
  refine ⟨?_, ?_, ?_⟩ <;> intro h
  · simp [activateLanguageProvider, h]
  · simp [activateBuildProvider, h]
  · simp [activateDebugProvider, h]

/-- Witness for C9 at a concrete registry and name. -/
theorem c9_witness :
    activateLanguageProvider emptyRegistry "nonexistent" = (false, emptyRegistry, []) ∧
    activateBuildProvider emptyRegistry "nonexistent" = (false, emptyRegistry, []) ∧
    activateDebugProvider emptyRegistry "nonexistent" = (false, emptyRegistry, []) :=
  ⟨(c9_unregistered_activate_no_change emptyRegistry "nonexistent").1 rfl,
   (c9_unregistered_activate_no_change emptyRegistry "nonexistent").2.1 rfl,
   (c9_unregistered_activate_no_change emptyRegistry "nonexistent").2.2 rfl⟩

/-! ## Claim C1 -/

/-- Counterexample to claim C1 as stated: with roslyn active and the
requested omnisharp provider registered but unavailable, the switch fails
and roslyn was deactivated, yet status()[language] is not empty — it still
reports roslyn. -/
theorem c1_counterexample :
    (activateLanguageProvider regSwitch "omnisharp").1 = false ∧
    (getStatus (activateLanguageProvider regSwitch "omnisharp").2.1).1 = some "roslyn" ∧
    (getStatus (activateLanguageProvider regSwitch "omnisharp").2.1).1 ≠ none := by
  decide

/-- Claim C1 (amended): if provider A is active for the language kind and
activate is called for a registered, different provider B whose availability
probe returns false, then A is deactivated exactly once before the probe and
the call returns false, but afterwards status() for the kind still reports A
— the active slot keeps the (now deactivated) previous provider instead of
becoming empty. -/
theorem c1_failed_switch_keeps_previous (r : ProviderRegistry) (n : String)
    (a b : Provider)
    (hact : r.activeLanguageProvider = some a)
    (hlook : lookupProv r.languageProviders n = some b)
    (hne : a.pid ≠ b.pid)
    (hdr : a.deactivateRaises = false)
    (har : b.availRaises = false)
    (hav : b.available = false) :
    activateLanguageProvider r n =
      (false, r, [CallEvent.deactivateCall a.pid, CallEvent.isAvailableCall b.pid]) ∧
    (activateLanguageProvider r n).2.1.activeLanguageProvider = some a := by
  have h1 : activateLanguageProvider r n =
      (false, r, [CallEvent.deactivateCall a.pid, CallEvent.isAvailableCall b.pid]) := by
    simp [activateLanguageProvider, hlook, hact, hne, hdr,
      probeAndActivateLanguage, har, hav]
  exact ⟨h1, by rw [h1]; exact hact⟩

/-- Witness for C1 (amended) at the concrete failed-switch registry. -/
theorem c1_witness :
    activateLanguageProvider regSwitch "omnisharp" =
      (false, regSwitch,
        [CallEvent.deactivateCall 1, CallEvent.isAvailableCall 2]) ∧
    (activateLanguageProvider regSwitch "omnisharp").2.1.activeLanguageProvider =
      some provRoslyn :=
  c1_failed_switch_keeps_previous regSwitch "omnisharp" provRoslyn provOmniUnavail
    rfl (by decide) (by decide) rfl rfl rfl

/-! ## Claim C4 -/

/-- Counterexample to claim C4 as stated: deactivating a provider whose
deactivate() raises leaves the active slot set and lets the rejection escape
to the caller. -/
theorem c4_counterexample :
    (deactivateLanguageProvider regBadDeactivate).2.1.activeLanguageProvider =
      some provBadDeactivate ∧
    (deactivateLanguageProvider regBadDeactivate).2.1.activeLanguageProvider ≠ none ∧
    (deactivateLanguageProvider regBadDeactivate).1 = Except.error "deactivate raised" :=
  ⟨rfl, by decide, rfl⟩

/-- Claim C4 (amended): deactivate(kind) invokes the active provider
deactivate() exactly once; when it returns normally the slot is cleared and
nothing escapes, but when deactivate() raises the rejection propagates to
the caller and the active slot is left unchanged (it is not cleared). -/
theorem c4_deactivate_raise_escapes (r : ProviderRegistry) (a : Provider)
    (hact : r.activeLanguageProvider = some a) :
    (a.deactivateRaises = false →
      deactivateLanguageProvider r =
        (Except.ok (), { r with activeLanguageProvider := none },
          [CallEvent.deactivateCall a.pid])) ∧
    (a.deactivateRaises = true →
      deactivateLanguageProvider r =
        (Except.error "deactivate raised", r, [CallEvent.deactivateCall a.pid])) := by
  constructor <;> intro h <;> simp [deactivateLanguageProvider, hact, h]

/-- Witness for C4 (amended): the normal case clears the slot, the raising
case at a concrete registry propagates and keeps the slot. -/
theorem c4_witness :
    deactivateLanguageProvider regLangActive =
      (Except.ok (), { regLangActive with activeLanguageProvider := none },
        [CallEvent.deactivateCall 1]) ∧
    deactivateLanguageProvider regBadDeactivate =
      (Except.error "deactivate raised", regBadDeactivate,
        [CallEvent.deactivateCall 3]) :=
  ⟨(c4_deactivate_raise_escapes regLangActive provRoslyn rfl).1 rfl,
   (c4_deactivate_raise_escapes regBadDeactivate provBadDeactivate rfl).2 rfl⟩

/-! ## Claim C5 -/

/-- Counterexample to claim C5 as stated: for the build kind, re-activating
the already-active msbuild provider does perform an availability probe the
second time (the first conjunct exhibits the state after the first
activation; the second call still emits an isAvailable() invocation). -/
theorem c5_counterexample :
    activateBuildProvider regBuildFresh "msbuild" =
      (true, regBuildActive, [CallEvent.isAvailableCall 5]) ∧
    activateBuildProvider regBuildActive "msbuild" =
      (true, regBuildActive, [CallEvent.isAvailableCall 5]) ∧
    [CallEvent.isAvailableCall 5] ≠ ([] : List CallEvent) := by
  decide

/-- Claim C5 (amended): re-activating the provider that is already active
short-circuits only for the Language kind — there the call returns true with
no provider-method invocation and no state change. For the Build and Debug
kinds there is no short-circuit: the call re-probes isAvailable() on the
requested provider (exactly one invocation, no deactivate and no activate)
and returns true, leaving the state unchanged, when the probe still reports
available. -/
theorem c5_repeat_activate (r : ProviderRegistry) (n : String) (p : Provider) :
    (lookupProv r.languageProviders n = some p →
      r.activeLanguageProvider = some p →
      activateLanguageProvider r n = (true, r, [])) ∧
    (lookupProv r.buildProviders n = some p →
      r.activeBuildProvider = some p →
      p.availRaises = false → p.available = true →
      activateBuildProvider r n = (true, r, [CallEvent.isAvailableCall p.pid])) ∧
    (lookupProv r.debugProviders n = some p →
      r.activeDebugProvider = some p →
      p.availRaises = false → p.available = true →
      activateDebugProvider r n = (true, r, [CallEvent.isAvailableCall p.pid])) := by
  refine ⟨?_, ?_, ?_⟩
  · intro hl ha
    simp [activateLanguageProvider, hl, ha]
  · intro hl ha hr hv
    have hupd : { r with activeBuildProvider := some p } = r := by
      cases r
      simp_all
    simp [activateBuildProvider, hl, hr, hv, hupd]
  · intro hl ha hr hv
    have hupd : { r with activeDebugProvider := some p } = r := by
      cases r
      simp_all
    simp [activateDebugProvider, hl, hr, hv, hupd]

/-- Witness for C5 (amended) at concrete registries for all three kinds. -/
theorem c5_witness :
    activateLanguageProvider regLangActive "roslyn" = (true, regLangActive, []) ∧
    activateBuildProvider regBuildActive "msbuild" =
      (true, regBuildActive, [CallEvent.isAvailableCall 5]) ∧
    activateDebugProvider regDebugActive "mono" =
      (true, regDebugActive, [CallEvent.isAvailableCall 6]) :=
  ⟨(c5_repeat_activate regLangActive "roslyn" provRoslyn).1 rfl rfl,
   (c5_repeat_activate regBuildActive "msbuild" provMsbuild).2.1 rfl rfl rfl rfl,
   (c5_repeat_activate regDebugActive "mono" provMono).2.2 rfl rfl rfl rfl⟩

/-! ## Claim C10 -/

/-- Counterexample to claim C10 as stated: with msbuild active for the build
kind, a further activateBuildProvider call for the same name invokes a
method (the availability probe) on the provider that was active before the
call. -/
theorem c10_counterexample :
    regBuildActive.activeBuildProvider = some provMsbuild ∧
    (activateBuildProvider regBuildActive "msbuild").2.2 =
      [CallEvent.isAvailableCall provMsbuild.pid] := by
  decide

/-- Claim C10 (amended): build and debug activation never invokes any method
on any provider other than the requested one — every emitted call is the
availability probe on the provider looked up under the requested name (so a
previously active different provider is never touched; the previously active
provider is probed only when it is itself the requested one) — and whenever
the activation fails (name not registered, availability probe false, or the
probe raising) the registry is unchanged, so the previously active provider
remains active. -/
theorem c10_build_debug_no_touch (r : ProviderRegistry) (n : String) :
    (∀ e ∈ (activateBuildProvider r n).2.2, ∃ p,
        lookupProv r.buildProviders n = some p ∧
        e = CallEvent.isAvailableCall p.pid) ∧
    ((activateBuildProvider r n).1 = false →
      (activateBuildProvider r n).2.1 = r) ∧
    (∀ e ∈ (activateDebugProvider r n).2.2, ∃ p,
        lookupProv r.debugProviders n = some p ∧
        e = CallEvent.isAvailableCall p.pid) ∧
    ((activateDebugProvider r n).1 = false →
      (activateDebugProvider r n).2.1 = r) := by
  refine ⟨?_, ?_, ?_, ?_⟩
  · intro e he
    cases hl : lookupProv r.buildProviders n with
    | none => simp [activateBuildProvider, hl] at he
    | some p =>
        refine ⟨p, rfl, ?_⟩
        simp only [activateBuildProvider, hl] at he
        split at he <;> simp_all
        split at he <;> simp_all
  · intro h
    cases hl : lookupProv r.buildProviders n with
    | none => simp [activateBuildProvider, hl]
    | some p =>
        simp only [activateBuildProvider, hl] at h ⊢
        split at h <;> simp_all
        split at h <;> simp_all
  · intro e he
    cases hl : lookupProv r.debugProviders n with
    | none => simp [activateDebugProvider, hl] at he
    | some p =>
        refine ⟨p, rfl, ?_⟩
        simp only [activateDebugProvider, hl] at he
        split at he <;> simp_all
        split at he <;> simp_all
  · intro h
    cases hl : lookupProv r.debugProviders n with
    | none => simp [activateDebugProvider, hl]
    | some p =>
        simp only [activateDebugProvider, hl] at h ⊢
        split at h <;> simp_all
        split at h <;> simp_all

/-- Registry for the C10 witness failure case: msbuild registered but
unavailable, mono active for the debug kind. -/
def regBuildUnavailDebugActive : ProviderRegistry :=
  ⟨[], [("msbuild", ⟨7, "msbuild", false, false, false, false⟩)],
    [("mono", provMono)], none, none, some provMono⟩

/-- Witness for C10 (amended): the probe event of a concrete build
activation is accounted to the looked-up provider, and a concrete failing
build activation leaves the registry (with its active debug provider)
unchanged. -/
theorem c10_witness :
    (∃ p, lookupProv regBuildActive.buildProviders "msbuild" = some p ∧
        CallEvent.isAvailableCall 5 = CallEvent.isAvailableCall p.pid) ∧
    (activateBuildProvider regBuildUnavailDebugActive "msbuild").2.1 =
      regBuildUnavailDebugActive :=
  ⟨(c10_build_debug_no_touch regBuildActive "msbuild").1
      (CallEvent.isAvailableCall 5) (by decide),
   (c10_build_debug_no_touch regBuildUnavailDebugActive "msbuild").2.1 (by decide)⟩

/-! ## Claim C6 -/

/-- Build activation never writes the language slot. -/
lemma activateBuildProvider_keeps_language (r : ProviderRegistry) (n : String) :
    (activateBuildProvider r n).2.1.activeLanguageProvider =
      r.activeLanguageProvider := by
  cases hl : lookupProv r.buildProviders n with
  | none => simp [activateBuildProvider, hl]
  | some p =>
      simp only [activateBuildProvider, hl]
      split <;> simp_all
      split <;> simp_all

/-- Debug activation never writes the language slot. -/
lemma activateDebugProvider_keeps_language (r : ProviderRegistry) (n : String) :
    (activateDebugProvider r n).2.1.activeLanguageProvider =
      r.activeLanguageProvider := by
  cases hl : lookupProv r.debugProviders n with
  | none => simp [activateDebugProvider, hl]
  | some p =>
      simp only [activateDebugProvider, hl]
      split <;> simp_all
      split <;> simp_all

/-- The build half of auto-activation never writes the language slot. -/
lemma tryActivateBuildList_keeps_language (l : List String) (r : ProviderRegistry) :
    (tryActivateBuildList r l).1.activeLanguageProvider =
      r.activeLanguageProvider := by
  induction l generalizing r with
  | nil => rfl
  | cons n rest ih =>
      simp only [tryActivateBuildList]
      split
      · exact activateBuildProvider_keeps_language r n
      · rw [ih]
        exact activateBuildProvider_keeps_language r n

/-- The debug half of auto-activation never writes the language slot. -/
lemma tryActivateDebugList_keeps_language (l : List String) (r : ProviderRegistry) :
    (tryActivateDebugList r l).1.activeLanguageProvider =
      r.activeLanguageProvider := by
  induction l generalizing r with
  | nil => rfl
  | cons n rest ih =>
      simp only [tryActivateDebugList]
      split
      · exact activateDebugProvider_keeps_language r n
      · rw [ih]
        exact activateDebugProvider_keeps_language r n

/-- A language activation attempt on a registry with an empty language slot
fails and changes nothing when the looked-up provider (if any) is
unavailable or raises. -/
lemma activateLanguageProvider_fail_unchanged (r : ProviderRegistry) (n : String)
    (hactive : r.activeLanguageProvider = none)
    (hfail : ∀ p, lookupProv r.languageProviders n = some p →
      p.availRaises = true ∨ p.available = false ∨ p.activateRaises = true) :
    (activateLanguageProvider r n).1 = false ∧
    (activateLanguageProvider r n).2.1 = r := by
  cases hl : lookupProv r.languageProviders n with
  | none => simp [activateLanguageProvider, hl]
  | some p =>
      have hp := hfail p hl
      simp only [activateLanguageProvider, hl, hactive, probeAndActivateLanguage]
      by_cases h1 : p.availRaises
      · simp [h1]
      · by_cases h2 : p.available
        · have h3 : p.activateRaises = true := by
            rcases hp with h | h | h <;> simp_all
          simp [h1, h2, h3]
        · simp [h1, h2]

/-- A build activation attempt fails and changes nothing when the looked-up
provider (if any) is unavailable or raises. -/
lemma activateBuildProvider_fail_unchanged (r : ProviderRegistry) (n : String)
    (hfail : ∀ p, lookupProv r.buildProviders n = some p →
      p.availRaises = true ∨ p.available = false) :
    (activateBuildProvider r n).1 = false ∧
    (activateBuildProvider r n).2.1 = r := by
  cases hl : lookupProv r.buildProviders n with
  | none => simp [activateBuildProvider, hl]
  | some p =>
      have hp := hfail p hl
      simp only [activateBuildProvider, hl]
      by_cases h1 : p.availRaises
      · simp [h1]
      · have h2 : p.available = false := by rcases hp with h | h <;> simp_all
        simp [h1, h2]

/-- A debug activation attempt fails and changes nothing when the looked-up
provider (if any) is unavailable or raises. -/
lemma activateDebugProvider_fail_unchanged (r : ProviderRegistry) (n : String)
    (hfail : ∀ p, lookupProv r.debugProviders n = some p →
      p.availRaises = true ∨ p.available = false) :
    (activateDebugProvider r n).1 = false ∧
    (activateDebugProvider r n).2.1 = r := by
  cases hl : lookupProv r.debugProviders n with
  | none => simp [activateDebugProvider, hl]
  | some p =>
      have hp := hfail p hl
      simp only [activateDebugProvider, hl]
      by_cases h1 : p.availRaises
      · simp [h1]
      · have h2 : p.available = false := by rcases hp with h | h <;> simp_all
        simp [h1, h2]

/-- Claim C6: autoActivate walks a fixed priority list per kind and calls
activate for each name until one succeeds. First part: with roslyn
registered but unavailable, omnisharp registered and available (the claim
scenario A unavailable, B available under priority list A-then-B) and an
empty language slot, afterwards status()[language] is B, i.e. omnisharp.
Second part: when every listed provider activation fails (unregistered,
probe false, or a raise) and the slots start empty, the registry is left
exactly as it was, so every active slot remains empty; the operation is
total (every raise of a provider method is caught inside activate), so no
error is raised. -/
theorem c6_auto_activate_priority (r : ProviderRegistry) :
    (∀ pa pb, r.activeLanguageProvider = none →
      lookupProv r.languageProviders "roslyn" = some pa →
      pa.availRaises = false → pa.available = false →
      lookupProv r.languageProviders "omnisharp" = some pb →
      pb.name = "omnisharp" → pb.availRaises = false → pb.available = true →
      pb.activateRaises = false →
      (autoActivateProviders r).1.activeLanguageProvider = some pb ∧
      (getStatus (autoActivateProviders r).1).1 = some "omnisharp") ∧
    (r.activeLanguageProvider = none → r.activeBuildProvider = none →
      r.activeDebugProvider = none →
      (∀ p, lookupProv r.languageProviders "roslyn" = some p →
        p.availRaises = true ∨ p.available = false ∨ p.activateRaises = true) →
      (∀ p, lookupProv r.languageProviders "omnisharp" = some p →
        p.availRaises = true ∨ p.available = false ∨ p.activateRaises = true) →
      (∀ p, lookupProv r.buildProviders "msbuild" = some p →
        p.availRaises = true ∨ p.available = false) →
      (∀ p, lookupProv r.debugProviders "mono" = some p →
        p.availRaises = true ∨ p.available = false) →
      (autoActivateProviders r).1 = r ∧
      (autoActivateProviders r).1.activeLanguageProvider = none ∧
      (autoActivateProviders r).1.activeBuildProvider = none ∧
      (autoActivateProviders r).1.activeDebugProvider = none) := by
  constructor
  · intro pa pb hactive hla h1 h2 hlb hname h3 h4 h5
    have hros : activateLanguageProvider r "roslyn" =
        (false, r, [CallEvent.isAvailableCall pa.pid]) := by
      simp [activateLanguageProvider, hla, hactive, probeAndActivateLanguage, h1, h2]
    have homni : activateLanguageProvider r "omnisharp" =
        (true, { r with activeLanguageProvider := some pb },
          [CallEvent.isAvailableCall pb.pid, CallEvent.activateCall pb.pid]) := by
      simp [activateLanguageProvider, hlb, hactive, probeAndActivateLanguage, h3, h4, h5]
    have hlang : (tryActivateLangList r ["roslyn", "omnisharp"]).1 =
        { r with activeLanguageProvider := some pb } := by
      simp [tryActivateLangList, hros, homni]
    have hfinal : (autoActivateProviders r).1.activeLanguageProvider = some pb := by
      simp only [autoActivateProviders]
      rw [tryActivateDebugList_keeps_language, tryActivateBuildList_keeps_language,
        hlang]
    refine ⟨hfinal, ?_⟩
    simp [getStatus, hfinal, hname]
  · intro hle hbe hde hfr hfo hfm hfd
    have hros := activateLanguageProvider_fail_unchanged r "roslyn" hle hfr
    have homni := activateLanguageProvider_fail_unchanged r "omnisharp" hle hfo
    have hlang : (tryActivateLangList r ["roslyn", "omnisharp"]).1 = r := by
      simp [tryActivateLangList, hros.1, hros.2, homni.1, homni.2]
    have hms := activateBuildProvider_fail_unchanged r "msbuild" hfm
    have hbuild : (tryActivateBuildList r ["msbuild"]).1 = r := by
      simp [tryActivateBuildList, hms.1, hms.2]
    have hmono := activateDebugProvider_fail_unchanged r "mono" hfd
    have hdebug : (tryActivateDebugList r ["mono"]).1 = r := by
      simp [tryActivateDebugList, hmono.1, hmono.2]
    have hall : (autoActivateProviders r).1 = r := by
      simp only [autoActivateProviders]
      rw [hlang, hbuild, hdebug]
    exact ⟨hall, by rw [hall]; exact hle, by rw [hall]; exact hbe,
      by rw [hall]; exact hde⟩

/-- Registry for the C6 witness: roslyn unavailable, omnisharp available,
all slots empty. -/
def regAutoScenario : ProviderRegistry :=
  ⟨[("roslyn", provRoslynUnavail), ("omnisharp", provOmniAvail)], [], [],
    none, none, none⟩

/-- Registry for the C6 all-fail witness: every registered provider is
unavailable. -/
def regAutoAllFail : ProviderRegistry :=
  ⟨[("roslyn", provRoslynUnavail)],
    [("msbuild", ⟨7, "msbuild", false, false, false, false⟩)],
    [("mono", ⟨8, "mono", false, false, false, false⟩)], none, none, none⟩

/-- Witness for C6 at concrete registries: the available second-priority
provider ends up active, and with nothing available the registry is left
unchanged with all slots empty. -/
theorem c6_witness :
    ((autoActivateProviders regAutoScenario).1.activeLanguageProvider =
        some provOmniAvail ∧
      (getStatus (autoActivateProviders regAutoScenario).1).1 = some "omnisharp") ∧
    ((autoActivateProviders regAutoAllFail).1 = regAutoAllFail ∧
      (autoActivateProviders regAutoAllFail).1.activeLanguageProvider = none ∧
      (autoActivateProviders regAutoAllFail).1.activeBuildProvider = none ∧
      (autoActivateProviders regAutoAllFail).1.activeDebugProvider = none) :=
  ⟨(c6_auto_activate_priority regAutoScenario).1 provRoslynUnavail provOmniAvail
      rfl (by decide) rfl rfl (by decide) rfl rfl rfl rfl,
   (c6_auto_activate_priority regAutoAllFail).2 rfl rfl rfl
      (fun p hp => by
        have : p = provRoslynUnavail :=
          (by simpa [lookupProv, provRoslynUnavail] using hp : _ = p).symm
        subst this
        right; left; rfl)
      (fun p hp => by simp [lookupProv, provRoslynUnavail] at hp)
      (fun p hp => by
        have : p = ⟨7, "msbuild", false, false, false, false⟩ :=
          (by simpa [lookupProv] using hp : _ = p).symm
        subst this
        right; rfl)
      (fun p hp => by
        have : p = ⟨8, "mono", false, false, false, false⟩ :=
          (by simpa [lookupProv] using hp : _ = p).symm
        subst this
        right; rfl)⟩

/-! ## Claim C7 -/

/-- The sequential install loop is the elementwise image of the single-tool
install, in input order. -/
lemma installTools_eq_map (env : Env) (c : Bool) :
    ∀ ts, installTools env c ts = ts.map (installTool env c) := by
  intro ts
  induction ts with
  | nil => rfl
  | cons t rest ih => simp [installTools, ih]

/-- Claim C7: installMany attempts the tools strictly sequentially in input
order — the outcome list has one entry per input tool, the i-th outcome is
the outcome of installing the i-th input tool, and the loop over a
non-empty list is the head install followed by the unmodified processing of
the tail, so a failed head install never prevents the remaining tools from
being attempted. -/
theorem c7_install_many_sequential (env : Env) (c : Bool) (tools : List MissingTool) :
    (installTools env c tools).length = tools.length ∧
    (∀ i : Nat, (installTools env c tools)[i]? = (tools[i]?).map (installTool env c)) ∧
    (∀ t ts, installTools env c (t :: ts) =
      installTool env c t :: installTools env c ts) := by
  refine ⟨?_, ?_, fun t ts => rfl⟩
  · rw [installTools_eq_map]
    exact List.length_map tools (installTool env c)
  · intro i
    rw [installTools_eq_map]
    exact List.getElem?_map (installTool env c) tools i

/-! ## Claim C3 -/

/-- Concrete successful command execution. -/
def execResultOk : ExecResult := ⟨"installed ok", "", 0⟩

/-- Concrete failing command execution. -/
def execResultFail : ExecResult := ⟨"", "install failed", 1⟩

/-- Environment whose every command execution succeeds. -/
def envExecOk : Env :=
  ⟨Platform.mac, fun _ => false, fun _ _ => Except.ok execResultOk,
    fun _ => false, some true, none, none⟩

/-- Environment whose every command execution exits non-zero. -/
def envExecFail : Env :=
  ⟨Platform.mac, fun _ => false, fun _ _ => Except.ok execResultFail,
    fun _ => false, some true, none, none⟩

/-- A concrete automatic tool: the standalone OmniSharp install. -/
def toolAuto : MissingTool := omnisharpStandaloneTool "/usr/local/bin/dotnet"

/-- The cancellation token of the cancellable progress surface, recorded as
its state history over one executeInstallCommand call: whether cancellation
had already been requested when the callback performs its single
isCancellationRequested probe (which happens before the command is
launched), and whether the user requests cancellation later, while the
launched command is still running. -/
structure CancellationToken where
  requestedBeforeLaunch : Bool
  requestedDuringExec : Bool
deriving DecidableEq, Repr

/-- executeInstallCommand against the full token history: the callback
probes the token exactly once, before launching the command, and throws the
cancelled error when it is already set; after the launch no listener is
registered on the token and the command promise is awaited to completion,
so the requestedDuringExec component of the history never influences the
outcome — the awaited command result decides exactly as in the probe-time
rendering above. -/
def executeInstallCommandToken (env : Env) (tok : CancellationToken)
    (cmd : String) (args : List String) : InstallOutcome :=
  if tok.requestedBeforeLaunch then
    InstallOutcome.declinedOrCancelled
  else
    match env.exec cmd args with
    | Except.ok result =>
        if result.exitCode = 0 then InstallOutcome.installed
        else InstallOutcome.failed result.stderr
    | Except.error msg =>
        if includesStr msg "cancelled" then InstallOutcome.declinedOrCancelled
        else InstallOutcome.failed msg

/-- installTool against the full token history: the same dispatch on
installMethod, command and argument vector as installTool, with the
automatic path running executeInstallCommand under the cancellable
progress surface. -/
def installToolToken (env : Env) (tok : CancellationToken)
    (tool : MissingTool) : InstallOutcome :=
  match tool.installMethod, tool.installCommand, tool.installArgs with
  | InstallMethod.automatic, some cmd, some args =>
      if cmd = "" then InstallOutcome.declinedOrCancelled
      else executeInstallCommandToken env tok cmd args
  | InstallMethod.automatic, _, _ => InstallOutcome.declinedOrCancelled
  | InstallMethod.guided, _, _ => InstallOutcome.declinedOrCancelled
  | InstallMethod.manual, _, _ => InstallOutcome.declinedOrCancelled

/-- The token-history rendering coincides with the probe-time rendering on
the pre-launch token state alone: the during-execution component of the
token is dead in the source. -/
lemma executeInstallCommandToken_eq (env : Env) (tok : CancellationToken)
    (cmd : String) (args : List String) :
    executeInstallCommandToken env tok cmd args =
      executeInstallCommand env tok.requestedBeforeLaunch cmd args := rfl

/-- Claim C3, which requires a user-triggered cancellation raised mid-call
to yield DeclinedOrCancelled regardless of what the command execution would
have returned, evaluated at the failing input: for the automatic standalone
OmniSharp tool with cancellation requested only after the command has been
launched, the install reports Installed when the command exits 0 and Failed
with the stderr text when it exits non-zero — the mid-call cancellation is
ignored, because the token is probed exactly once before the launch and the
command is then awaited to completion. Only a cancellation already pending
at that single probe yields DeclinedOrCancelled. -/
theorem c3_mid_execution_cancellation_ignored :
    installToolToken envExecOk ⟨false, true⟩ toolAuto = InstallOutcome.installed ∧
    installToolToken envExecFail ⟨false, true⟩ toolAuto =
      InstallOutcome.failed "install failed" ∧
    InstallOutcome.installed ≠ InstallOutcome.declinedOrCancelled ∧
    installToolToken envExecOk ⟨true, false⟩ toolAuto =
      InstallOutcome.declinedOrCancelled :=
  ⟨rfl, rfl, by decide, rfl⟩

/-! ## Claim C8 -/

/-- Membership in a conditional emission implies membership in the emitted
list. -/
lemma mem_ite_list {c : Prop} [Decidable c] {t : MissingTool} {xs : List MissingTool}
    (h : t ∈ (if c then xs else [])) : t ∈ xs := by
  split at h
  · exact h
  · simp at h

/-- The mono emission is optional on every platform. -/
lemma monoToolFor_required (p : Platform) : (monoToolFor p).required = false := by
  unfold monoToolFor
  split <;> rfl

/-- Required tools pass the filter: the base-runtime tool alone. -/
lemma filter_req_dotnet :
    List.filter (fun t => t.required) [dotnetSdkTool] = [dotnetSdkTool] := rfl

/-- The guided C# extension suggestions are filtered out as optional. -/
lemma filter_req_sammy_ms :
    List.filter (fun t => t.required) [sammyTool, msTool] = [] := rfl

/-- The mono emission is filtered out as optional. -/
lemma filter_req_mono (p : Platform) :
    List.filter (fun t => t.required) [monoToolFor p] = [] := by
  unfold monoToolFor
  split <;> rfl

/-- A conditional emission of optional tools contributes nothing to the
required filter. -/
lemma filter_req_if_empty (c : Prop) [Decidable c] (xs : List MissingTool)
    (hxs : xs.filter (fun t => t.required) = []) :
    (if c then xs else []).filter (fun t => t.required) = [] := by
  split
  · exact hxs
  · rfl

/-- Claim C8: in every environment, a tool emitted by a classifier scan has
required true only when it is the base-runtime (.NET SDK) emission, and
when the base runtime is absent the scan emits exactly one required tool —
the manual-install SDK tool with a non-empty download URL and at least one
instruction line; every other emission is optional. -/
theorem c8_required_only_base_runtime (env : Env) (reg : ProviderRegistry)
    (l : List MissingTool) (h : checkMissingTools env reg = Except.ok l) :
    (∀ t ∈ l, t.required = true → t = dotnetSdkTool) ∧
    (findDotNetCLI env = none →
      l.filter (fun t => t.required) = [dotnetSdkTool] ∧
      dotnetSdkTool.required = true ∧
      dotnetSdkTool.installMethod = InstallMethod.manual ∧
      (∃ u, dotnetSdkTool.downloadUrl = some u ∧ u ≠ "") ∧
      (∃ ins, dotnetSdkTool.instructions = some ins ∧ 1 ≤ ins.length)) := by
  unfold checkMissingTools at h
  cases hpr : roslynActiveProbe reg with
  | error e =>
      rw [hpr] at h
      exact absurd h (by simp)
  | ok b =>
      rw [hpr] at h
      simp only [Except.ok.injEq] at h
      subst h
      constructor
      · intro t ht hreq
        rcases List.mem_append.1 ht with h123 | h4
        · rcases List.mem_append.1 h123 with h12 | h3
          · rcases List.mem_append.1 h12 with h1 | h2
            · simpa using mem_ite_list h1
            · rcases (by simpa using mem_ite_list h2 : t = sammyTool ∨ t = msTool)
                with rfl | rfl
              · exact absurd hreq (by decide)
              · exact absurd hreq (by decide)
          · cases hdp : findDotNetCLI env with
            | some dp =>
                rw [hdp] at h3
                have h3m : t = omnisharpStandaloneTool dp := by
                  simpa using mem_ite_list h3
                subst h3m
                simp [omnisharpStandaloneTool] at hreq
            | none =>
                rw [hdp] at h3
                simp at h3
        · split at h4
          · cases hfm : findMono env with
            | none =>
                rw [hfm] at h4
                have h4m : t = monoToolFor env.platform := by simpa using h4
                subst h4m
                rw [monoToolFor_required] at hreq
                exact absurd hreq (by decide)
            | some p =>
                rw [hfm] at h4
                simp at h4
          · simp at h4
      · intro hdp
        refine ⟨?_, rfl, rfl, ⟨"https://dotnet.microsoft.com/download", rfl, by decide⟩,
          ⟨_, rfl, by decide⟩⟩
        rw [hdp]
        simp only [Option.isNone_none, if_true, List.filter_append, filter_req_dotnet,
          filter_req_if_empty _ _ filter_req_sammy_ms]
        cases hfm : findMono env with
        | none =>
            simp [filter_req_if_empty _ _ (filter_req_mono env.platform),
              monoToolFor_required]
        | some p =>
            simp

/-- Environment with no dotnet CLI anywhere: file probes all fail and
command spawns reject. -/
def envNoDotnet : Env :=
  ⟨Platform.linux, fun _ => false, fun _ _ => Except.error "spawn failed",
    fun _ => false, some false, none, none⟩

/-- The scan result in `envNoDotnet` against an empty registry. -/
def scanNoDotnet : List MissingTool :=
  [dotnetSdkTool, sammyTool, msTool, monoToolFor Platform.linux]

/-- Witness for C8 at a concrete environment without the base runtime. -/
theorem c8_witness :
    (∀ t ∈ scanNoDotnet, t.required = true → t = dotnetSdkTool) ∧
    (scanNoDotnet.filter (fun t => t.required) = [dotnetSdkTool] ∧
      dotnetSdkTool.required = true ∧
      dotnetSdkTool.installMethod = InstallMethod.manual ∧
      (∃ u, dotnetSdkTool.downloadUrl = some u ∧ u ≠ "") ∧
      (∃ ins, dotnetSdkTool.instructions = some ins ∧ 1 ≤ ins.length)) :=
  ⟨(c8_required_only_base_runtime envNoDotnet emptyRegistry scanNoDotnet rfl).1,
   (c8_required_only_base_runtime envNoDotnet emptyRegistry scanNoDotnet rfl).2 rfl⟩

/-! ## Claim C2 -/

/-- Environment with the dotnet CLI installed at a standard location and
mono present (so the debug check stays quiet); no C# extension installed. -/
def envDotnetPresent : Env :=
  ⟨Platform.mac,
    fun p => p == "/usr/local/share/dotnet/dotnet" || p == "/usr/local/bin/mono",
    fun _ _ => Except.error "unused", fun _ => false, some true, none, none⟩

/-- Registry where omnisharp is the active language provider while the
registered roslyn provider probes unavailable. -/
def regOmniActive : ProviderRegistry :=
  ⟨[("roslyn", provRoslynUnavail), ("omnisharp", provOmniAvail)], [], [],
    some provOmniAvail, none, none⟩

/-- Counterexample to claim C2 as stated: the base runtime is present and a
language provider (omnisharp) is active in the registry, yet the scan
returns two language-category tools — the classifier consults only the
provider registered under the name roslyn and its availability probe, not
the active slot. -/
theorem c2_counterexample :
    regOmniActive.activeLanguageProvider = some provOmniAvail ∧
    findDotNetCLI envDotnetPresent = some "/usr/local/share/dotnet/dotnet" ∧
    checkMissingTools envDotnetPresent regOmniActive =
      Except.ok [sammyTool, msTool] ∧
    sammyTool.category = ToolCategory.language ∧
    msTool.category = ToolCategory.language :=
  ⟨rfl, rfl, rfl, rfl, rfl⟩

/-- A base-runtime tool never counts as a language tool. -/
lemma filter_lang_dotnet :
    List.filter (fun t => decide (t.category = ToolCategory.language))
      [dotnetSdkTool] = [] := rfl

/-- The mono emission is a debug-category tool on every platform. -/
lemma monoToolFor_category (p : Platform) :
    (monoToolFor p).category = ToolCategory.debug := by
  unfold monoToolFor
  split <;> rfl

/-- A mono emission never counts as a language tool. -/
lemma filter_lang_mono (p : Platform) :
    List.filter (fun t => decide (t.category = ToolCategory.language))
      [monoToolFor p] = [] := by
  unfold monoToolFor
  split <;> rfl

/-- A conditional emission whose list contributes no language tools
contributes none. -/
lemma filter_if_empty (c : Prop) [Decidable c] (q : MissingTool → Bool)
    (xs : List MissingTool) (hxs : xs.filter q = []) :
    (if c then xs else []).filter q = [] := by
  split
  · exact hxs
  · rfl

/-- Claim C2 (amended): a scan returns zero language-category tools whenever
the provider registered under the name roslyn exists and its isAvailable()
probe returns true — the classifier gate is that registration-plus-probe,
not the activeness of a language provider (an active provider under another
name does not suppress the language emissions). -/
theorem c2_roslyn_available_suppresses_language_tools (env : Env)
    (reg : ProviderRegistry) (p : Provider) (l : List MissingTool)
    (hl : lookupProv reg.languageProviders "roslyn" = some p)
    (hr : p.availRaises = false) (ha : p.available = true)
    (hs : checkMissingTools env reg = Except.ok l) :
    l.filter (fun t => decide (t.category = ToolCategory.language)) = [] := by
  unfold checkMissingTools at hs
  have hpr : roslynActiveProbe reg = Except.ok true := by
    simp [roslynActiveProbe, hl, hr, ha]
  rw [hpr] at hs
  simp only [Except.ok.injEq] at hs
  subst hs
  simp only [List.filter_append]
  cases hdp : findDotNetCLI env with
  | none =>
      cases hfm : findMono env with
      | none =>
          simp [filter_if_empty _ _ _ filter_lang_dotnet,
            filter_if_empty _ _ _ (filter_lang_mono env.platform),
            dotnetSdkTool, monoToolFor_category]
      | some q =>
          simp [filter_if_empty _ _ _ filter_lang_dotnet, dotnetSdkTool]
  | some dp =>
      cases hfm : findMono env with
      | none =>
          simp [filter_if_empty _ _ _ filter_lang_dotnet,
            filter_if_empty _ _ _ (filter_lang_mono env.platform),
            monoToolFor_category]
      | some q =>
          simp [filter_if_empty _ _ _ filter_lang_dotnet]

/-- Registry with an available roslyn provider registered. -/
def regRoslynRegistered : ProviderRegistry :=
  ⟨[("roslyn", provRoslyn)], [], [], none, none, none⟩

/-- Witness for C2 (amended) at a concrete environment and registry. -/
theorem c2_witness :
    lookupProv regRoslynRegistered.languageProviders "roslyn" = some provRoslyn ∧
    provRoslyn.available = true ∧
    checkMissingTools envDotnetPresent regRoslynRegistered = Except.ok [] ∧
    List.filter (fun t => decide (t.category = ToolCategory.language))
      ([] : List MissingTool) = [] :=
  ⟨rfl, rfl, rfl,
   c2_roslyn_available_suppresses_language_tools envDotnetPresent
     regRoslynRegistered provRoslyn [] rfl rfl rfl rfl⟩
